import Mathlib

/-!
Shallow embedding of blinktalkminipy/server.py: the frame-ingestion
pipeline and blink-detection state machine of the BlinkTalk server.

Pure functions of the source become Lean functions; the process-wide
mutable state (frame_stats, blink_state, frame_buffer) becomes an
explicit ServerState threaded through the request handlers.  Machine
floats become real numbers; Python None becomes Option.  The external
collaborators (base64 decoding, the cv2/dlib landmark detector, the
filesystem) are parameters of the handler, universally quantified in
the theorems.
-/

/-- Server configuration constant MAC_IP of server.py. -/
def MAC_IP : String := "100.70.127.109"

/-- Server configuration constant PORT of server.py. -/
def PORT : Nat := 8080

/-- Directory name FRAMES_DIR = Path("received_frames"). -/
def FRAMES_DIR : String := "received_frames"

/-- EAR threshold for blink detection (EAR_BLINK_THRESHOLD = 0.35). -/
noncomputable def EAR_BLINK_THRESHOLD : ℝ := 0.35

/-- The frame_stats dict: total_received, total_processed, total_errors,
last_frame_time (a datetime or None, modelled as an optional timestamp
string). -/
structure FrameStats where
  total_received : Nat
  total_processed : Nat
  total_errors : Nat
  last_frame_time : Option String
  deriving Repr, DecidableEq

/-- The blink_state dict: was_closed, blink_count, session_active,
session_start_time. -/
structure BlinkState where
  was_closed : Bool
  blink_count : Nat
  session_active : Bool
  session_start_time : Option String
  deriving Repr, DecidableEq

/-- A 2-D landmark point (a row of the numpy point arrays), with real
coordinates. -/
structure Point2D where
  x : ℝ
  y : ℝ

/-- The landmarks dict returned by FaceLandmarkDetector.detect_landmarks:
the two 6-point eye arrays (each may be absent from the dict, hence
Option) plus the face_detected / eyes_detected flags. -/
structure Landmarks where
  left_eye : Option (List Point2D)
  right_eye : Option (List Point2D)
  face_detected : Bool
  eyes_detected : Bool

/-- The frame_info dict pushed into the frame buffer: frame_id,
timestamp, raw image bytes, and their length. -/
structure FrameInfo where
  frame_id : String
  timestamp : String
  data : List Nat
  size : Nat
  deriving Repr, DecidableEq

/-- Capacity of frame_buffer = deque(maxlen=10). -/
def FRAME_BUFFER_CAP : Nat := 10

/-- frame_buffer.append(frame_info) on a deque with maxlen: when the
deque is full the oldest (leftmost) element is silently dropped. -/
def bufferPush (buf : List FrameInfo) (f : FrameInfo) : List FrameInfo :=
  if buf.length < FRAME_BUFFER_CAP then buf ++ [f] else buf.drop 1 ++ [f]

/-- Appending a whole sequence of frames to the buffer, in order. -/
def bufferPushAll (buf : List FrameInfo) (fs : List FrameInfo) : List FrameInfo :=
  fs.foldl bufferPush buf

/-- Euclidean distance between two points: np.linalg.norm of the
difference. -/
noncomputable def pointDist (p q : Point2D) : ℝ :=
  Real.sqrt ((p.x - q.x) ^ 2 + (p.y - q.y) ^ 2)

/-- Default point used to express indexing into a list of points; the
length guard of calculate_ear keeps every real access in range. -/
def originPt : Point2D := ⟨0, 0⟩

/-- EARCalculator.calculate_ear: EAR = (|p2-p6| + |p3-p5|) / (2 * |p1-p4|)
for an eye_points array stored in the order [p1, p4, p2, p5, p3, p6];
None when the input is None, has fewer than 6 points, or the horizontal
corner distance is zero. -/
noncomputable def calculate_ear : Option (List Point2D) → Option ℝ
  | none => none
  | some eye_points =>
    if eye_points.length < 6 then none
    else
      let p1 := eye_points.getD 0 originPt
      let p4 := eye_points.getD 1 originPt
      let p2 := eye_points.getD 2 originPt
      let p5 := eye_points.getD 3 originPt
      let p3 := eye_points.getD 4 originPt
      let p6 := eye_points.getD 5 originPt
      let vertical1 := pointDist p2 p6
      let vertical2 := pointDist p3 p5
      let horizontal := pointDist p1 p4
      if horizontal = 0 then none
      else some ((vertical1 + vertical2) / (2 * horizontal))

/-- EARCalculator.calculate_average_ear: average of both eyes when both
EARs are defined, the single defined one otherwise, None when neither is
defined or the landmarks dict is None. -/
noncomputable def calculate_average_ear : Option Landmarks → Option ℝ
  | none => none
  | some landmarks =>
    let left_ear := calculate_ear landmarks.left_eye
    let right_ear := calculate_ear landmarks.right_eye
    match left_ear, right_ear with
    | some l, some r => some ((l + r) / 2)
    | some l, none => some l
    | none, some r => some r
    | none, none => none

/-- The blink-detection step of do_POST (server.py lines 416-424), run on
one defined EAR sample: is_closed = ear <= EAR_BLINK_THRESHOLD; if the
previous frame was closed and this one is open, increment blink_count;
then store is_closed into was_closed unconditionally. -/
noncomputable def blinkOnFrame (ear_value : ℝ) (s : BlinkState) : BlinkState :=
  let is_closed : Bool := decide (ear_value ≤ EAR_BLINK_THRESHOLD)
  let count := if s.was_closed && !is_closed then s.blink_count + 1 else s.blink_count
  { s with blink_count := count, was_closed := is_closed }

/-- The guarded blink update of do_POST (line 414): the step runs only
when ear_value is not None and the session is active; otherwise the
blink state is untouched. -/
noncomputable def blinkUpdate (ear_value : Option ℝ) (s : BlinkState) : BlinkState :=
  match ear_value with
  | none => s
  | some e => if s.session_active then blinkOnFrame e s else s

/-- Feeding a sequence of defined EAR samples, one per frame. -/
noncomputable def feedEars (s : BlinkState) (ears : List ℝ) : BlinkState :=
  ears.foldl (fun st e => blinkUpdate (some e) st) s

/-- The process-wide mutable state of server.py: the frame_stats dict,
the blink_state dict and the frame_buffer deque. -/
structure ServerState where
  frame_stats : FrameStats
  blink_state : BlinkState
  frame_buffer : List FrameInfo

/-- A POST body after the json.loads stage: either the bytes were not
valid JSON (json.JSONDecodeError), or a payload with the fields do_POST
reads via data.get — frame (default the empty string), timestamp
(default: server current time), frame_id (default "unknown"),
save_frame (default False). -/
inductive PostBody where
  | malformed
  | wellFormed (frame : String) (timestamp : Option String)
      (frame_id : Option String) (save_frame : Bool)

/-- The JSON body do_POST responds with: status "success" with its
payload fields, or status "error" with a message. -/
inductive PostResponse where
  | success (frame_id : String) (saved : Bool) (filepath : Option String)
      (face_detected : Bool) (ear_value : Option ℝ)
  | error (message : String)

/-- The stats object inside the /health response. -/
structure HealthStats where
  total_received : Nat
  total_processed : Nat
  total_errors : Nat
  frames_in_buffer : Nat
  last_frame_time : Option String
  deriving Repr, DecidableEq

/-- The response of do_GET: the /health JSON body, or 404 with an empty
body for any other path. -/
inductive GetResponse where
  | health (status : String) (server_ip : String) (port : Nat) (stats : HealthStats)
  | notFound
  deriving DecidableEq

/-- FrameHandler.do_POST as a state transformer.  The externals are
parameters: now is the server clock reading, b64decode models
base64.b64decode (None = the call raised, caught by the generic except
handler), detect models FaceLandmarkDetector.detect_landmarks (which
catches its own exceptions and returns None).  The order of effects
follows the source: json parse, read fields, increment total_received
and set last_frame_time, then branch on a non-empty frame: decode, push
the frame_info into the buffer, detect landmarks, compute the average
EAR, run the guarded blink update, optionally build a save path, and
increment total_processed; an empty frame or a parse failure yields an
error response and increments total_errors. -/
noncomputable def do_POST (body : PostBody) (now : String)
    (b64decode : String → Option (List Nat))
    (detect : List Nat → Option Landmarks)
    (s : ServerState) : ServerState × PostResponse :=
  match body with
  | .malformed =>
      ({ s with frame_stats :=
          { s.frame_stats with total_errors := s.frame_stats.total_errors + 1 } },
       .error "Invalid JSON data")
  | .wellFormed frame tstamp fid save_frame =>
      let timestamp := tstamp.getD now
      let frame_id := fid.getD "unknown"
      let stats1 :=
        { s.frame_stats with
          total_received := s.frame_stats.total_received + 1,
          last_frame_time := some now }
      if frame = "" then
        ({ s with frame_stats := { stats1 with total_errors := stats1.total_errors + 1 } },
         .error "No frame data provided")
      else
        match b64decode frame with
        | none =>
            ({ s with frame_stats := { stats1 with total_errors := stats1.total_errors + 1 } },
             .error "Error processing frame")
        | some image_data =>
            let buf := bufferPush s.frame_buffer
              ⟨frame_id, timestamp, image_data, image_data.length⟩
            let landmarks := detect image_data
            let face_detected := landmarks.isSome
            let ear_value := calculate_average_ear landmarks
            let blink := blinkUpdate ear_value s.blink_state
            let filepath :=
              if save_frame then
                some (FRAMES_DIR ++ "/frame_" ++ frame_id ++ "_"
                  ++ ((timestamp.replace ":" "-").replace "." "-") ++ ".jpg")
              else none
            let stats2 := { stats1 with total_processed := stats1.total_processed + 1 }
            ({ frame_stats := stats2, blink_state := blink, frame_buffer := buf },
             .success frame_id save_frame filepath face_detected ear_value)

/-- FrameHandler.do_GET: /health returns the stats snapshot without
touching any state, any other path returns 404. -/
def do_GET (path : String) (s : ServerState) : ServerState × GetResponse :=
  if path = "/health" then
    (s, .health "running" MAC_IP PORT
      { total_received := s.frame_stats.total_received
        total_processed := s.frame_stats.total_processed
        total_errors := s.frame_stats.total_errors
        frames_in_buffer := s.frame_buffer.length
        last_frame_time := s.frame_stats.last_frame_time })
  else (s, .notFound)

/-- The state the module-level dicts and the deque hold at server start. -/
def initialState : ServerState :=
  { frame_stats := { total_received := 0, total_processed := 0,
                     total_errors := 0, last_frame_time := none }
    blink_state := { was_closed := false, blink_count := 0,
                     session_active := false, session_start_time := none }
    frame_buffer := [] }

/-- One inbound HTTP request the server handles: a POST with its
external inputs, or a GET. -/
inductive Request where
  | post (body : PostBody) (now : String)
      (b64decode : String → Option (List Nat))
      (detect : List Nat → Option Landmarks)
  | get (path : String)

/-- The state change one request causes. -/
noncomputable def handleRequest (s : ServerState) : Request → ServerState
  | .post body now dec det => (do_POST body now dec det s).1
  | .get path => (do_GET path s).1

/-- The state after a whole sequence of requests, in order. -/
noncomputable def handleAll (s : ServerState) (reqs : List Request) : ServerState :=
  reqs.foldl handleRequest s

/-! ### Lemmas about the blink state machine -/

/-- A closed sample (ear below or at the threshold) only records the
closed state; it never increments the count. -/
theorem blinkOnFrame_of_le (e : ℝ) (h : e ≤ EAR_BLINK_THRESHOLD) (s : BlinkState) :
    blinkOnFrame e s = { s with was_closed := true } := by
  cases s
  simp [blinkOnFrame, decide_eq_true h]

/-- An open sample (ear strictly above the threshold) records the open
state and increments the count exactly when the previous frame was
closed. -/
theorem blinkOnFrame_of_gt (e : ℝ) (h : EAR_BLINK_THRESHOLD < e) (s : BlinkState) :
    blinkOnFrame e s =
      { s with was_closed := false,
               blink_count := if s.was_closed then s.blink_count + 1 else s.blink_count } := by
  cases s
  simp [blinkOnFrame, decide_eq_false (not_le.mpr h)]

/-- An undefined EAR sample is skipped. -/
theorem blinkUpdate_none (s : BlinkState) : blinkUpdate none s = s := rfl

/-- With no active session the blink state is untouched. -/
theorem blinkUpdate_inactive (ear : Option ℝ) (s : BlinkState)
    (h : s.session_active = false) : blinkUpdate ear s = s := by
  cases ear <;> simp [blinkUpdate, h]

/-- With an active session a defined sample runs the blink step. -/
theorem blinkUpdate_active (e : ℝ) (s : BlinkState) (h : s.session_active = true) :
    blinkUpdate (some e) s = blinkOnFrame e s := by
  simp [blinkUpdate, h]

/-- The exact effect of one guarded update on the count. -/
theorem blinkUpdate_count_eq (e : ℝ) (s : BlinkState) :
    (blinkUpdate (some e) s).blink_count =
      if s.session_active = true ∧ s.was_closed = true ∧ EAR_BLINK_THRESHOLD < e
      then s.blink_count + 1 else s.blink_count := by
  rcases le_or_lt e EAR_BLINK_THRESHOLD with h | h
  · cases hs : s.session_active
    · rw [blinkUpdate_inactive (some e) s hs]
      simp [hs]
    · rw [blinkUpdate_active e s hs, blinkOnFrame_of_le e h s]
      simp [not_lt.mpr h]
  · cases hs : s.session_active
    · rw [blinkUpdate_inactive (some e) s hs]
      simp [hs]
    · rw [blinkUpdate_active e s hs, blinkOnFrame_of_gt e h s]
      cases hw : s.was_closed <;> simp [hs, hw, h]

/-- One frame can raise the count by at most 1. -/
theorem blinkUpdate_count_le (ear : Option ℝ) (s : BlinkState) :
    (blinkUpdate ear s).blink_count ≤ s.blink_count + 1 := by
  cases ear with
  | none => exact Nat.le_succ _
  | some e =>
      rw [blinkUpdate_count_eq e s]
      split <;> omega

/-- The count never decreases over one frame. -/
theorem blinkUpdate_count_mono (ear : Option ℝ) (s : BlinkState) :
    s.blink_count ≤ (blinkUpdate ear s).blink_count := by
  cases ear with
  | none => exact Nat.le_refl _
  | some e =>
      rw [blinkUpdate_count_eq e s]
      split <;> omega

/-- C1: for an Active session with wasClosed initially false, the EAR
sequence [0.46, 0.33, 0.33, 0.46] increments blinkCount by exactly 1,
and [0.33, 0.20, 0.15, 0.46, 0.46] also increments it by exactly 1; in
general a frame increments the count exactly when the session is
active, the previous wasClosed is true and the sample is strictly above
the threshold 0.35, and never by more than 1 per frame. -/
theorem blink_threshold_edge_detection (n : Nat) :
    (feedEars ⟨false, n, true, none⟩ [0.46, 0.33, 0.33, 0.46]).blink_count = n + 1
    ∧ (feedEars ⟨false, n, true, none⟩ [0.33, 0.20, 0.15, 0.46, 0.46]).blink_count = n + 1
    ∧ (∀ (e : ℝ) (s : BlinkState),
        (blinkUpdate (some e) s).blink_count =
          if s.session_active = true ∧ s.was_closed = true ∧ EAR_BLINK_THRESHOLD < e
          then s.blink_count + 1 else s.blink_count)
    ∧ (∀ (ear : Option ℝ) (s : BlinkState),
        (blinkUpdate ear s).blink_count ≤ s.blink_count + 1) := by
  have h46 : EAR_BLINK_THRESHOLD < (0.46 : ℝ) := by
    unfold EAR_BLINK_THRESHOLD; norm_num
  have h33 : (0.33 : ℝ) ≤ EAR_BLINK_THRESHOLD := by
    unfold EAR_BLINK_THRESHOLD; norm_num
  have h20 : (0.20 : ℝ) ≤ EAR_BLINK_THRESHOLD := by
    unfold EAR_BLINK_THRESHOLD; norm_num
  have h15 : (0.15 : ℝ) ≤ EAR_BLINK_THRESHOLD := by
    unfold EAR_BLINK_THRESHOLD; norm_num
  refine ⟨?_, ?_, blinkUpdate_count_eq, blinkUpdate_count_le⟩
  · simp [feedEars, blinkUpdate_active, blinkOnFrame_of_gt _ h46,
      blinkOnFrame_of_le _ h33]
  · simp [feedEars, blinkUpdate_active, blinkOnFrame_of_gt _ h46,
      blinkOnFrame_of_le _ h33, blinkOnFrame_of_le _ h20, blinkOnFrame_of_le _ h15]

/-- C4: frames fed while the session is inactive, and frames whose EAR
is undefined, leave the whole blink state (blinkCount and wasClosed)
unchanged; a whole EAR sequence fed while Idle changes nothing. -/
theorem idle_and_undefined_suppression (s : BlinkState) :
    (s.session_active = false → ∀ ear : Option ℝ, blinkUpdate ear s = s)
    ∧ (s.session_active = false → ∀ ears : List ℝ, feedEars s ears = s)
    ∧ blinkUpdate none s = s := by
  refine ⟨fun h ear => blinkUpdate_inactive ear s h, fun h ears => ?_, rfl⟩
  induction ears with
  | nil => rfl
  | cons e t ih =>
      show List.foldl (fun st e => blinkUpdate (some e) st) (blinkUpdate (some e) s) t = s
      rw [blinkUpdate_inactive (some e) s h]
      exact ih

/-! ### Lemmas about the frame buffer -/

/-- Pushing below capacity appends. -/
theorem bufferPush_of_lt (buf : List FrameInfo) (f : FrameInfo)
    (h : buf.length < FRAME_BUFFER_CAP) : bufferPush buf f = buf ++ [f] :=
  if_pos h

/-- Pushing at capacity drops the oldest element. -/
theorem bufferPush_of_ge (buf : List FrameInfo) (f : FrameInfo)
    (h : ¬ buf.length < FRAME_BUFFER_CAP) : bufferPush buf f = buf.drop 1 ++ [f] :=
  if_neg h

/-- A push keeps the buffer within capacity. -/
theorem bufferPush_length_le (buf : List FrameInfo) (f : FrameInfo)
    (h : buf.length ≤ FRAME_BUFFER_CAP) :
    (bufferPush buf f).length ≤ FRAME_BUFFER_CAP := by
  simp only [FRAME_BUFFER_CAP] at h ⊢
  unfold bufferPush
  simp only [FRAME_BUFFER_CAP]
  split
  · simp only [List.length_append, List.length_singleton]
    omega
  · simp only [List.length_append, List.length_drop, List.length_singleton]
    omega

/-- Dropping one element up front commutes with a later drop. -/
theorem drop_one_append_drop (buf l : List FrameInfo) (k : Nat)
    (hb : 1 ≤ buf.length) :
    (buf.drop 1 ++ l).drop k = (buf ++ l).drop (k + 1) := by
  rw [List.drop_append_eq_append_drop, List.drop_append_eq_append_drop,
      List.drop_drop]
  have h1 : 1 + k = k + 1 := Nat.add_comm 1 k
  have h2 : k - (buf.drop 1).length = k + 1 - buf.length := by
    simp only [List.length_drop]
    omega
  rw [h1, h2]

/-- The buffer after any push sequence holds exactly the suffix of the
pushed frames that fits the capacity. -/
theorem bufferPushAll_eq_drop (fs : List FrameInfo) :
    ∀ buf : List FrameInfo, buf.length ≤ FRAME_BUFFER_CAP →
      bufferPushAll buf fs = (buf ++ fs).drop ((buf ++ fs).length - FRAME_BUFFER_CAP) := by
  induction fs with
  | nil =>
      intro buf h
      have h0 : buf.length - FRAME_BUFFER_CAP = 0 := Nat.sub_eq_zero_of_le h
      simp [bufferPushAll, h0]
  | cons f t ih =>
      intro buf h
      have step : bufferPushAll buf (f :: t) = bufferPushAll (bufferPush buf f) t := rfl
      rw [step, ih (bufferPush buf f) (bufferPush_length_le buf f h)]
      by_cases hlt : buf.length < FRAME_BUFFER_CAP
      · rw [bufferPush_of_lt buf f hlt, List.append_assoc, List.singleton_append]
      · have hfull : buf.length = FRAME_BUFFER_CAP := le_antisymm h (not_lt.mp hlt)
        have hcap : 1 ≤ buf.length := by
          rw [hfull]
          norm_num [FRAME_BUFFER_CAP]
        rw [bufferPush_of_ge buf f hlt, List.append_assoc, List.singleton_append,
            drop_one_append_drop buf (f :: t) _ hcap]
        congr 1
        simp only [List.length_append, List.length_drop, List.length_cons]
        omega

/-- C6: the frame buffer is a capacity-10 FIFO: after pushing any
sequence of frames into the empty buffer, exactly the last min(n, 10)
frames are retained in arrival order, the length never exceeds 10, and a
push into a full buffer silently drops the oldest frame. -/
theorem frame_buffer_fifo (fs : List FrameInfo) :
    bufferPushAll [] fs = fs.drop (fs.length - FRAME_BUFFER_CAP)
    ∧ (bufferPushAll [] fs).length = min fs.length FRAME_BUFFER_CAP
    ∧ (∀ (buf : List FrameInfo) (f : FrameInfo), buf.length ≤ FRAME_BUFFER_CAP →
        (bufferPush buf f).length ≤ FRAME_BUFFER_CAP)
    ∧ (∀ (buf : List FrameInfo) (f : FrameInfo), buf.length = FRAME_BUFFER_CAP →
        bufferPush buf f = buf.drop 1 ++ [f]) := by
  have hmain := bufferPushAll_eq_drop fs [] (by simp)
  simp only [List.nil_append] at hmain
  refine ⟨hmain, ?_, bufferPush_length_le, ?_⟩
  · rw [hmain, List.length_drop]
    simp only [FRAME_BUFFER_CAP]
    omega
  · intro buf f hfull
    exact bufferPush_of_ge buf f (by simp [hfull])

/-! ### The EAR calculator -/

/-- C2: for an eye contour with at least 6 points whose corner distance
(indices 0 and 1) is nonzero, calculate_ear returns
(|p2-p6| + |p3-p5|) / (2 * |p1-p4|) with the corners at indices 0 and 1,
the top points at indices 2 and 4 and the bottom points at indices 3 and
5 of the fixed storage order; with fewer than 6 points, a zero corner
distance, or no contour at all it returns None. -/
theorem calculate_ear_spec (eye_points : List Point2D) :
    (eye_points.length < 6 → calculate_ear (some eye_points) = none)
    ∧ (pointDist (eye_points.getD 0 originPt) (eye_points.getD 1 originPt) = 0 →
        calculate_ear (some eye_points) = none)
    ∧ (6 ≤ eye_points.length →
        pointDist (eye_points.getD 0 originPt) (eye_points.getD 1 originPt) ≠ 0 →
        calculate_ear (some eye_points) =
          some ((pointDist (eye_points.getD 2 originPt) (eye_points.getD 5 originPt)
              + pointDist (eye_points.getD 4 originPt) (eye_points.getD 3 originPt))
            / (2 * pointDist (eye_points.getD 0 originPt) (eye_points.getD 1 originPt))))
    ∧ calculate_ear none = none := by
  refine ⟨fun h => ?_, fun h => ?_, fun h6 hd => ?_, rfl⟩
  · simp [calculate_ear, h]
  · by_cases h6 : eye_points.length < 6
    · simp [calculate_ear, h6]
    · simp only [List.getD_eq_getElem?_getD] at h
      simp [calculate_ear, h6, h]
  · simp only [List.getD_eq_getElem?_getD] at hd
    simp [calculate_ear, Nat.not_lt.mpr h6, hd]

/-- A concrete contour reaching the formula branch of calculate_ear:
unit vertical distances over a unit corner distance give EAR 1. -/
theorem calculate_ear_concrete :
    calculate_ear (some [⟨0, 0⟩, ⟨1, 0⟩, ⟨0, 1⟩, ⟨0, 0⟩, ⟨0, 1⟩, ⟨0, 0⟩]) = some 1 := by
  have hd : pointDist ⟨0, 0⟩ ⟨1, 0⟩ = 1 := by
    rw [pointDist, show ((0:ℝ) - 1) ^ 2 + ((0:ℝ) - 0) ^ 2 = 1 by norm_num, Real.sqrt_one]
  have hv : pointDist ⟨0, 1⟩ ⟨0, 0⟩ = 1 := by
    rw [pointDist, show ((0:ℝ) - 0) ^ 2 + ((1:ℝ) - 0) ^ 2 = 1 by norm_num, Real.sqrt_one]
  simp [calculate_ear, hd, hv]

/-- C5: the combined session-level EAR is the arithmetic mean of the two
eye EARs when both are defined, the single defined one when exactly one
is, and None when neither is defined or the landmark result is absent. -/
theorem calculate_average_ear_spec :
    calculate_average_ear none = none
    ∧ (∀ (lm : Landmarks) (l r : ℝ),
        calculate_ear lm.left_eye = some l → calculate_ear lm.right_eye = some r →
        calculate_average_ear (some lm) = some ((l + r) / 2))
    ∧ (∀ (lm : Landmarks) (l : ℝ),
        calculate_ear lm.left_eye = some l → calculate_ear lm.right_eye = none →
        calculate_average_ear (some lm) = some l)
    ∧ (∀ (lm : Landmarks) (r : ℝ),
        calculate_ear lm.left_eye = none → calculate_ear lm.right_eye = some r →
        calculate_average_ear (some lm) = some r)
    ∧ (∀ lm : Landmarks,
        calculate_ear lm.left_eye = none → calculate_ear lm.right_eye = none →
        calculate_average_ear (some lm) = none) := by
  refine ⟨rfl, fun lm l r hl hr => ?_, fun lm l hl hr => ?_,
    fun lm r hl hr => ?_, fun lm hl hr => ?_⟩ <;>
  simp [calculate_average_ear, hl, hr]

/-! ### The request handlers -/

/-- C7: POSTing a body that is not valid JSON yields the error response
with message Invalid JSON data and increments totalErrors by exactly 1,
leaving totalReceived, lastFrameTime, the frame buffer and the blink
session unchanged. -/
theorem malformed_body_effect (s : ServerState) (now : String)
    (b64decode : String → Option (List Nat))
    (detect : List Nat → Option Landmarks) :
    do_POST .malformed now b64decode detect s =
      ({ s with frame_stats :=
          { s.frame_stats with total_errors := s.frame_stats.total_errors + 1 } },
       .error "Invalid JSON data") := rfl

/-- C3 counterexample: a well-formed request with an empty frame field,
handled at the initial state, does change totalReceived — the increment
at line 383 of server.py runs before the empty-frame check at line 391,
so the claim that totalReceived is left unchanged is false. -/
theorem empty_frame_changes_total_received :
    (do_POST (.wellFormed "" none none false) "t0" (fun _ => none) (fun _ => none)
        initialState).1.frame_stats.total_received ≠
      initialState.frame_stats.total_received := by
  simp [do_POST, initialState]

/-- C3 (amended): a well-formed request with an empty frame field yields
the error response No frame data provided and increments totalErrors by
exactly 1, leaving the frame buffer, the blink session and
totalProcessed unchanged; totalReceived is however also incremented and
lastFrameTime is set to the current time, because those updates precede
the empty-frame check. -/
theorem empty_frame_effect (s : ServerState) (tstamp fid : Option String)
    (save_frame : Bool) (now : String)
    (b64decode : String → Option (List Nat))
    (detect : List Nat → Option Landmarks) :
    do_POST (.wellFormed "" tstamp fid save_frame) now b64decode detect s =
      ({ s with frame_stats :=
          { s.frame_stats with
            total_received := s.frame_stats.total_received + 1,
            last_frame_time := some now,
            total_errors := s.frame_stats.total_errors + 1 } },
       .error "No frame data provided") := by
  simp [do_POST]

/-- One request never shrinks the blink count. -/
theorem handleRequest_blink_mono (s : ServerState) (r : Request) :
    s.blink_state.blink_count ≤ (handleRequest s r).blink_state.blink_count := by
  cases r with
  | get path =>
      show s.blink_state.blink_count ≤ (do_GET path s).1.blink_state.blink_count
      unfold do_GET
      split <;> exact Nat.le_refl _
  | post body now dec det =>
      show s.blink_state.blink_count ≤ (do_POST body now dec det s).1.blink_state.blink_count
      cases body with
      | malformed => exact Nat.le_refl _
      | wellFormed frame tstamp fid save_frame =>
          by_cases hf : frame = ""
          · simp [do_POST, hf]
          · simp only [do_POST, hf, if_false, ite_false]
            cases hdec : dec frame with
            | none => simp [hdec]
            | some image_data =>
                simp only [hdec]
                exact blinkUpdate_count_mono _ _

/-- A whole request sequence never shrinks the blink count. -/
theorem handleAll_blink_mono (reqs : List Request) :
    ∀ s : ServerState,
      s.blink_state.blink_count ≤ (handleAll s reqs).blink_state.blink_count := by
  induction reqs with
  | nil => intro s; exact Nat.le_refl _
  | cons r t ih =>
      intro s
      exact Nat.le_trans (handleRequest_blink_mono s r) (ih (handleRequest s r))

/-- C10: blinkCount is monotonically non-decreasing across every request
the program handles: no POST or GET ever decreases or resets it, and
after any request sequence it is at least its value after any prefix of
that sequence. -/
theorem blink_count_monotone (s : ServerState) :
    (∀ r : Request,
        s.blink_state.blink_count ≤ (handleRequest s r).blink_state.blink_count)
    ∧ (∀ reqs : List Request,
        s.blink_state.blink_count ≤ (handleAll s reqs).blink_state.blink_count)
    ∧ (∀ pre suf : List Request,
        (handleAll s pre).blink_state.blink_count ≤
          (handleAll s (pre ++ suf)).blink_state.blink_count) := by
  refine ⟨handleRequest_blink_mono s, fun reqs => handleAll_blink_mono reqs s,
    fun pre suf => ?_⟩
  show _ ≤ (List.foldl handleRequest s (pre ++ suf)).blink_state.blink_count
  rw [List.foldl_append]
  exact handleAll_blink_mono suf (handleAll s pre)

/-- One request keeps the buffer within capacity. -/
theorem handleRequest_buffer_le (s : ServerState) (r : Request)
    (h : s.frame_buffer.length ≤ FRAME_BUFFER_CAP) :
    (handleRequest s r).frame_buffer.length ≤ FRAME_BUFFER_CAP := by
  cases r with
  | get path =>
      show (do_GET path s).1.frame_buffer.length ≤ FRAME_BUFFER_CAP
      unfold do_GET
      split <;> exact h
  | post body now dec det =>
      show (do_POST body now dec det s).1.frame_buffer.length ≤ FRAME_BUFFER_CAP
      cases body with
      | malformed => exact h
      | wellFormed frame tstamp fid save_frame =>
          by_cases hf : frame = ""
          · simp only [do_POST, hf, if_true, ite_true]
            exact h
          · simp only [do_POST, hf, if_false, ite_false]
            cases hdec : dec frame with
            | none =>
                simp only [hdec]
                exact h
            | some image_data =>
                simp only [hdec]
                exact bufferPush_length_le _ _ h

/-- Every state reachable from server start keeps the buffer within
capacity. -/
theorem handleAll_buffer_le (reqs : List Request) :
    ∀ s : ServerState, s.frame_buffer.length ≤ FRAME_BUFFER_CAP →
      (handleAll s reqs).frame_buffer.length ≤ FRAME_BUFFER_CAP := by
  induction reqs with
  | nil => intro s h; exact h
  | cons r t ih =>
      intro s h
      exact ih (handleRequest s r) (handleRequest_buffer_le s r h)

/-- C9: GET /health mutates no state and returns exactly the current
values of totalReceived, totalProcessed, totalErrors and lastFrameTime,
with frames_in_buffer equal to the true buffer occupancy; on every state
the server can reach from start, that occupancy is at most 10. -/
theorem health_snapshot (s : ServerState) :
    do_GET "/health" s =
      (s, .health "running" MAC_IP PORT
        { total_received := s.frame_stats.total_received
          total_processed := s.frame_stats.total_processed
          total_errors := s.frame_stats.total_errors
          frames_in_buffer := s.frame_buffer.length
          last_frame_time := s.frame_stats.last_frame_time })
    ∧ ∀ reqs : List Request,
        (handleAll initialState reqs).frame_buffer.length ≤ FRAME_BUFFER_CAP := by
  exact ⟨rfl, fun reqs => handleAll_buffer_le reqs initialState (by simp [initialState])⟩
